import Mathlib

/-!
Verification of the OSSL_PARAM parameter-exchange core (crypto/params.c).

The model is a shallow embedding of the C source:
* a descriptor (`OSSLParam`) mirrors `OSSL_PARAM` field by field; a `NULL`
  pointer argument is `Option.none`;
* buffers are little-endian byte lists (`Bytes`); the source normalises
  endianness at runtime via `DECLARE_IS_ENDIAN`, which the model keeps as an
  explicit `isBE` flag on `copy_integer`/`is_negative`; the platform constant
  `IS_BIG_ENDIAN` is fixed to `false` (x86-64 little endian);
* machine integers are `Int`/`Nat` with explicit two's-complement
  encode/decode (`toTwos`/`fromTwos`, `encodeLE`/`decodeLE`);
* an 8-byte `double` slot is represented by the exact integral value it
  holds (`BufVal.dbl`); every REAL write performed by the code under proof
  stores an integral double (the mantissa guards enforce exactness), and
  `BufVal.asBytes` supplies the genuine IEEE-754 bit pattern of such a slot;
* `ERR_raise` is modelled by an `ErrKind` carried in the result (each failure
  path of the source raises exactly one reason).

Functions keep the names of the C functions they embed.  A C function
`int f(OSSL_PARAM *p, ...)` that may write through `p` becomes a Lean function
returning `Bool × Option ErrKind × Option OSSLParam` (success flag, raised
error, descriptor state after the call); `get` accessors take
`const OSSL_PARAM *` in the source and therefore return the descriptor
unchanged as the final component.
-/

/-- A byte buffer, least significant byte first (little-endian platform). -/
abbrev Bytes := List Nat

/-- The error reasons raised by crypto/params.c (`ERR_raise` arguments). -/
inductive ErrKind where
  /-- ERR_R_PASSED_NULL_PARAMETER -/
  | NullArgument
  /-- CRYPTO_R_PARAM_OF_INCOMPATIBLE_TYPE -/
  | BadType
  /-- CRYPTO_R_PARAM_NOT_INTEGER_TYPE -/
  | NotInteger
  /-- CRYPTO_R_PARAM_UNSIGNED_INTEGER_NEGATIVE_VALUE_UNSUPPORTED -/
  | UnsignedNegative
  /-- CRYPTO_R_PARAM_VALUE_TOO_LARGE_FOR_DESTINATION -/
  | OutOfRange
  /-- CRYPTO_R_PARAM_CANNOT_BE_REPRESENTED_EXACTLY -/
  | Inexact
  /-- CRYPTO_R_TOO_SMALL_BUFFER -/
  | TooSmall
  /-- CRYPTO_R_PARAM_UNSUPPORTED_FLOATING_POINT_FORMAT -/
  | UnsupportedReal
  /-- CRYPTO_R_NO_SPACE_FOR_TERMINATING_NULL -/
  | NoSpaceNul
deriving DecidableEq, Repr

/-- The `data_type` tags of an OSSL_PARAM descriptor. -/
inductive DataType where
  | INTEGER
  | UNSIGNED_INTEGER
  | REAL
  | UTF8_STRING
  | OCTET_STRING
  | UTF8_PTR
  | OCTET_PTR
deriving DecidableEq, Repr

/-- IEEE-754 binary64 bit pattern of the double holding the integral value
`v`; exact for `|v| < 2 ^ 53` (the only doubles the code under proof ever
stores into a REAL slot). -/
def doubleBitsOfInt (v : Int) : Nat :=
  if v = 0 then 0
  else
    let a := v.natAbs
    let e := Nat.log2 a
    (if v < 0 then 2 ^ 63 else 0) + (e + 1023) * 2 ^ 52 + (a * 2 ^ 52 / 2 ^ e - 2 ^ 52)

/-- Contents of the caller-owned buffer a descriptor references: either raw
bytes, or an 8-byte double slot holding the exact integral value `v`. -/
inductive BufVal where
  | bytes (bs : Bytes)
  | dbl (v : Int)
deriving DecidableEq, Repr

/-- The raw little-endian bytes of the buffer; for a double slot this is the
IEEE-754 encoding of its (integral) value. -/
def BufVal.asBytes : BufVal → Bytes
  | .bytes bs => bs
  | .dbl v => List.map (fun i => doubleBitsOfInt v / 256 ^ i % 256) [0, 1, 2, 3, 4, 5, 6, 7]

/-- The `OSSL_PARAM_UNMODIFIED` sentinel, `((size_t)-1)` on a 64-bit platform. -/
def OSSL_PARAM_UNMODIFIED : Nat := 2 ^ 64 - 1

/-- One OSSL_PARAM descriptor.  `key = none` marks the sentinel entry that
terminates a sequence; `data = none` is an absent (`NULL`) buffer reference. -/
structure OSSLParam where
  key : Option String
  data_type : DataType
  data : Option BufVal
  data_size : Nat
  return_size : Nat
deriving DecidableEq, Repr

/-- The buffer referenced by a live descriptor holds exactly `data_size`
bytes (the caller-supplied capacity). -/
def wfData (p : OSSLParam) : Prop :=
  ∀ b, p.data = some b → b.asBytes.length = p.data_size

/-- The `OSSL_PARAM_END` sentinel `{ NULL, 0, NULL, 0, 0 }`; the source's
`data_type` 0 is not a live tag, the model reuses `INTEGER` for it (a
sentinel's tag is never inspected). -/
def OSSL_PARAM_construct_end : OSSLParam :=
  { key := none, data_type := .INTEGER, data := none, data_size := 0, return_size := 0 }

/-- Platform endianness for `DECLARE_IS_ENDIAN`: the model fixes the
little-endian platform (x86-64). -/
def IS_BIG_ENDIAN : Bool := false

/-- `sizeof(double) == 4 ? 24 : 53`: bits in the double mantissa; this
platform has 8-byte doubles. -/
def real_shift : Nat := 53

/-- Little-endian value of a byte list: `decodeLE [b0, b1, ...] = b0 + 256*b1 + ...`. -/
def decodeLE : Bytes → Nat
  | [] => 0
  | b :: bs => b + 256 * decodeLE bs

/-- The `w` low-order bytes of `n`, least significant first. -/
def encodeLE : Nat → Nat → Bytes
  | 0, _ => []
  | w + 1, v => v % 256 :: encodeLE w (v / 256)

/-- Two's-complement representative of `v` in `w` bytes (what a store of a
`w`-byte machine integer places in memory). -/
def toTwos (w : Nat) (v : Int) : Nat := (v % (2 ^ (8 * w) : Int)).toNat

/-- Signed value of a `w`-byte two's-complement representative. -/
def fromTwos (w : Nat) (n : Nat) : Int :=
  if n < 2 ^ (8 * w - 1) then (n : Int) else (n : Int) - 2 ^ (8 * w)

def INT32_MAX : Int := 2 ^ 31 - 1
def INT32_MIN : Int := -(2 ^ 31)
def INT64_MAX : Int := 2 ^ 63 - 1
def INT64_MIN : Int := -(2 ^ 63)
def UINT32_MAX : Nat := 2 ^ 32 - 1
def UINT64_MAX : Nat := 2 ^ 64 - 1

/-- `is_negative`: non-zero iff the sign bit of the native-endian number is
set; big endian tests `n[0]`, little endian `n[s-1]`. -/
def is_negative (isBE : Bool) (n : Bytes) : Bool :=
  128 &&& (if isBE then n.getD 0 0 else n.getD (n.length - 1) 0) != 0

/-- `check_sign_bytes`: all bytes of the given range equal the expected sign
byte `s` (the caller passes the range as an explicit sublist). -/
def check_sign_bytes (p : Bytes) (s : Nat) : Bool :=
  p.all (fun b => b = s)

/-- `copy_integer`: copy an integer of `src.length` bytes into one of
`dest.length` bytes, native byte order, extending with `pad` or failing with
`CRYPTO_R_PARAM_VALUE_TOO_LARGE_FOR_DESTINATION` when dropped high-order
bytes are not all `pad` (or, in signed mode, the retained sign bit flips).
Returns (success, raised error, destination after the call); a failing call
leaves the destination untouched. -/
def copy_integer (isBE : Bool) (dest : Bytes) (src : Bytes) (pad : Nat)
    (signed_int : Bool) : Bool × Option ErrKind × Bytes :=
  let dest_len := dest.length
  let src_len := src.length
  if isBE then
    if src_len < dest_len then
      (true, none, List.replicate (dest_len - src_len) pad ++ src)
    else
      let n := src_len - dest_len
      if !check_sign_bytes (src.take n) pad
          || (signed_int && (pad ^^^ src.getD n 0) &&& 128 != 0) then
        (false, some .OutOfRange, dest)
      else
        (true, none, src.drop n)
  else
    if src_len < dest_len then
      (true, none, src ++ List.replicate (dest_len - src_len) pad)
    else
      let n := src_len - dest_len
      if !check_sign_bytes (src.drop dest_len) pad
          || (signed_int && (pad ^^^ src.getD (dest_len - 1) 0) &&& 128 != 0) then
        (false, some .OutOfRange, dest)
      else
        (true, none, src.take dest_len)

/-- `signed_from_signed`: signed to signed copy, sign-extending with 0xff for
negative sources. -/
def signed_from_signed (dest src : Bytes) : Bool × Option ErrKind × Bytes :=
  copy_integer IS_BIG_ENDIAN dest src
    (if is_negative IS_BIG_ENDIAN src then 255 else 0) true

/-- `signed_from_unsigned`: unsigned to signed copy, zero padding. -/
def signed_from_unsigned (dest src : Bytes) : Bool × Option ErrKind × Bytes :=
  copy_integer IS_BIG_ENDIAN dest src 0 true

/-- `unsigned_from_signed`: signed to unsigned copy; rejects a negative
source with CRYPTO_R_PARAM_UNSIGNED_INTEGER_NEGATIVE_VALUE_UNSUPPORTED. -/
def unsigned_from_signed (dest src : Bytes) : Bool × Option ErrKind × Bytes :=
  if is_negative IS_BIG_ENDIAN src then
    (false, some .UnsignedNegative, dest)
  else
    copy_integer IS_BIG_ENDIAN dest src 0 false

/-- `unsigned_from_unsigned`: unsigned to unsigned copy. -/
def unsigned_from_unsigned (dest src : Bytes) : Bool × Option ErrKind × Bytes :=
  copy_integer IS_BIG_ENDIAN dest src 0 false

/-- `general_get_int`: odd-size get of a signed integer; reads the
descriptor's buffer into the caller's `val` buffer (`val_size = val.length`).
The buffer of an integer-typed descriptor is raw bytes; the `dbl` cases are
outside `wfData` states and mirror the not-an-integer failure. -/
def general_get_int (p : OSSLParam) (val : Bytes) : Bool × Option ErrKind × Bytes :=
  match p.data with
  | none => (false, some .NullArgument, val)
  | some b =>
    match p.data_type, b with
    | .INTEGER, .bytes src => signed_from_signed val src
    | .UNSIGNED_INTEGER, .bytes src => signed_from_unsigned val src
    | _, _ => (false, some .NotInteger, val)

/-- `general_set_int`: odd-size set of a signed integer held in the `val`
buffer.  An absent destination buffer is a size query (`return_size` :=
`val.length`, success); otherwise `return_size` is the destination size on
success and the expected size on failure. -/
def general_set_int (p : OSSLParam) (val : Bytes) : Bool × Option ErrKind × OSSLParam :=
  match p.data with
  | none => (true, none, { p with return_size := val.length })
  | some b =>
    match p.data_type with
    | .INTEGER =>
      match signed_from_signed b.asBytes val with
      | (r, e, bs) =>
        (r, e, { p with data := some (.bytes bs),
                        return_size := if r then p.data_size else val.length })
    | .UNSIGNED_INTEGER =>
      match unsigned_from_signed b.asBytes val with
      | (r, e, bs) =>
        (r, e, { p with data := some (.bytes bs),
                        return_size := if r then p.data_size else val.length })
    | _ => (false, some .NotInteger, { p with return_size := val.length })

/-- `general_get_uint`: odd-size get of an unsigned integer. -/
def general_get_uint (p : OSSLParam) (val : Bytes) : Bool × Option ErrKind × Bytes :=
  match p.data with
  | none => (false, some .NullArgument, val)
  | some b =>
    match p.data_type, b with
    | .INTEGER, .bytes src => unsigned_from_signed val src
    | .UNSIGNED_INTEGER, .bytes src => unsigned_from_unsigned val src
    | _, _ => (false, some .NotInteger, val)

/-- `general_set_uint`: odd-size set of an unsigned integer held in `val`. -/
def general_set_uint (p : OSSLParam) (val : Bytes) : Bool × Option ErrKind × OSSLParam :=
  match p.data with
  | none => (true, none, { p with return_size := val.length })
  | some b =>
    match p.data_type with
    | .INTEGER =>
      match signed_from_unsigned b.asBytes val with
      | (r, e, bs) =>
        (r, e, { p with data := some (.bytes bs),
                        return_size := if r then p.data_size else val.length })
    | .UNSIGNED_INTEGER =>
      match unsigned_from_unsigned b.asBytes val with
      | (r, e, bs) =>
        (r, e, { p with data := some (.bytes bs),
                        return_size := if r then p.data_size else val.length })
    | _ => (false, some .NotInteger, { p with return_size := val.length })

/-- `OSSL_PARAM_get_int32`.  The caller's out-pointer `val` is assumed
non-NULL (the source's `val == NULL` null-argument check is not modelled).
The source takes `const OSSL_PARAM *`, so the descriptor after the call —
returned as the last component — is the input itself. -/
def OSSL_PARAM_get_int32 (pOpt : Option OSSLParam) :
    Bool × Option ErrKind × Option Int × Option OSSLParam :=
  let r : Bool × Option ErrKind × Option Int :=
    match pOpt with
    | none => (false, some .NullArgument, none)
    | some p =>
      match p.data with
      | none => (false, some .NullArgument, none)
      | some b =>
        if p.data_type = .INTEGER then
          match p.data_size, b with
          | 4, .bytes bs => (true, none, some (fromTwos 4 (decodeLE (bs.take 4))))
          | 8, .bytes bs =>
            let i64 := fromTwos 8 (decodeLE (bs.take 8))
            if INT32_MIN ≤ i64 ∧ i64 ≤ INT32_MAX then (true, none, some i64)
            else (false, some .OutOfRange, none)
          | _, _ =>
            match general_get_int p (List.replicate 4 0) with
            | (r, e, out) => (r, e, if r then some (fromTwos 4 (decodeLE out)) else none)
        else if p.data_type = .UNSIGNED_INTEGER then
          match p.data_size, b with
          | 4, .bytes bs =>
            let u32 := decodeLE (bs.take 4)
            if u32 ≤ INT32_MAX.toNat then (true, none, some (u32 : Int))
            else (false, some .OutOfRange, none)
          | 8, .bytes bs =>
            let u64 := decodeLE (bs.take 8)
            if u64 ≤ INT32_MAX.toNat then (true, none, some (u64 : Int))
            else (false, some .OutOfRange, none)
          | _, _ =>
            match general_get_int p (List.replicate 4 0) with
            | (r, e, out) => (r, e, if r then some (fromTwos 4 (decodeLE out)) else none)
        else if p.data_type = .REAL then
          match p.data_size, b with
          | 8, .dbl d =>
            -- d >= INT32_MIN && d <= INT32_MAX && d == (int32_t)d; the model's
            -- double slots are integral, so the exactness conjunct holds
            if INT32_MIN ≤ d ∧ d ≤ INT32_MAX then (true, none, some d)
            else (false, some .OutOfRange, none)
          | 8, .bytes _ =>
            -- a REAL slot outside the integral-double model (cannot arise from
            -- the modelled writes): treated as failing the exactness test
            (false, some .OutOfRange, none)
          | _, _ => (false, some .UnsupportedReal, none)
        else (false, some .BadType, none)
  (r.1, r.2.1, r.2.2, pOpt)

/-- `OSSL_PARAM_set_int32`. -/
def OSSL_PARAM_set_int32 (pOpt : Option OSSLParam) (val : Int) :
    Bool × Option ErrKind × Option OSSLParam :=
  match pOpt with
  | none => (false, some .NullArgument, none)
  | some p0 =>
    let p := { p0 with return_size := 0 }
    if p.data_type = .INTEGER then
      let p := { p with return_size := 4 }   -- sizeof(int32_t), minimum expected size
      match p.data with
      | none => (true, none, some p)
      | some _ =>
        match p.data_size with
        | 4 => (true, none, some { p with data := some (.bytes (encodeLE 4 (toTwos 4 val))) })
        | 8 => (true, none, some { p with return_size := 8,
                                          data := some (.bytes (encodeLE 8 (toTwos 8 val))) })
        | _ =>
          match general_set_int p (encodeLE 4 (toTwos 4 val)) with
          | (r, e, p') => (r, e, some p')
    else if p.data_type = .UNSIGNED_INTEGER ∧ 0 ≤ val then
      let p := { p with return_size := 4 }   -- sizeof(uint32_t), minimum expected size
      match p.data with
      | none => (true, none, some p)
      | some _ =>
        match p.data_size with
        | 4 => (true, none, some { p with data := some (.bytes (encodeLE 4 (toTwos 4 val))) })
        | 8 => (true, none, some { p with return_size := 8,
                                          data := some (.bytes (encodeLE 8 (toTwos 8 val))) })
        | _ =>
          match general_set_int p (encodeLE 4 (toTwos 4 val)) with
          | (r, e, p') => (r, e, some p')
    else if p.data_type = .REAL then
      let p := { p with return_size := 8 }   -- sizeof(double)
      match p.data with
      | none => (true, none, some p)
      | some _ =>
        match p.data_size with
        | 8 =>
          -- shift = 53 is not < 8*sizeof(int32_t) - 1 = 31: no mantissa check
          if real_shift < 8 * 4 - 1 && val.natAbs >>> real_shift != 0 then
            (false, some .Inexact, some p)
          else
            (true, none, some { p with data := some (.dbl val) })
        | _ => (false, some .UnsupportedReal, some p)
    else (false, some .BadType, some p)

/-- `OSSL_PARAM_get_uint32` (out-pointer assumed non-NULL, cf.
`OSSL_PARAM_get_int32`). -/
def OSSL_PARAM_get_uint32 (pOpt : Option OSSLParam) :
    Bool × Option ErrKind × Option Nat × Option OSSLParam :=
  let r : Bool × Option ErrKind × Option Nat :=
    match pOpt with
    | none => (false, some .NullArgument, none)
    | some p =>
      match p.data with
      | none => (false, some .NullArgument, none)
      | some b =>
        if p.data_type = .UNSIGNED_INTEGER then
          match p.data_size, b with
          | 4, .bytes bs => (true, none, some (decodeLE (bs.take 4)))
          | 8, .bytes bs =>
            let u64 := decodeLE (bs.take 8)
            if u64 ≤ UINT32_MAX then (true, none, some u64)
            else (false, some .OutOfRange, none)
          | _, _ =>
            match general_get_uint p (List.replicate 4 0) with
            | (r, e, out) => (r, e, if r then some (decodeLE out) else none)
        else if p.data_type = .INTEGER then
          match p.data_size, b with
          | 4, .bytes bs =>
            let i32 := fromTwos 4 (decodeLE (bs.take 4))
            if 0 ≤ i32 then (true, none, some i32.toNat)
            else (false, some .UnsignedNegative, none)
          | 8, .bytes bs =>
            let i64 := fromTwos 8 (decodeLE (bs.take 8))
            if 0 ≤ i64 ∧ i64 ≤ (UINT32_MAX : Int) then (true, none, some i64.toNat)
            else if i64 < 0 then (false, some .UnsignedNegative, none)
            else (false, some .OutOfRange, none)
          | _, _ =>
            match general_get_uint p (List.replicate 4 0) with
            | (r, e, out) => (r, e, if r then some (decodeLE out) else none)
        else if p.data_type = .REAL then
          match p.data_size, b with
          | 8, .dbl d =>
            -- d >= 0 && d <= UINT32_MAX && d == (uint32_t)d (d integral here)
            if 0 ≤ d ∧ d ≤ (UINT32_MAX : Int) then (true, none, some d.toNat)
            else (false, some .Inexact, none)
          | 8, .bytes _ => (false, some .Inexact, none)
          | _, _ => (false, some .UnsupportedReal, none)
        else (false, some .BadType, none)
  (r.1, r.2.1, r.2.2, pOpt)

/-- `OSSL_PARAM_set_uint32`. -/
def OSSL_PARAM_set_uint32 (pOpt : Option OSSLParam) (val : Nat) :
    Bool × Option ErrKind × Option OSSLParam :=
  match pOpt with
  | none => (false, some .NullArgument, none)
  | some p0 =>
    let p := { p0 with return_size := 0 }
    if p.data_type = .UNSIGNED_INTEGER then
      let p := { p with return_size := 4 }   -- sizeof(uint32_t), minimum expected size
      match p.data with
      | none => (true, none, some p)
      | some _ =>
        match p.data_size with
        | 4 => (true, none, some { p with data := some (.bytes (encodeLE 4 val)) })
        | 8 => (true, none, some { p with return_size := 8,
                                          data := some (.bytes (encodeLE 8 val)) })
        | _ =>
          match general_set_uint p (encodeLE 4 val) with
          | (r, e, p') => (r, e, some p')
    else if p.data_type = .INTEGER then
      let p := { p with return_size := 4 }   -- sizeof(int32_t), minimum expected size
      match p.data with
      | none => (true, none, some p)
      | some _ =>
        match p.data_size with
        | 4 =>
          if val ≤ INT32_MAX.toNat then
            (true, none, some { p with data := some (.bytes (encodeLE 4 val)) })
          else (false, some .OutOfRange, some p)
        | 8 => (true, none, some { p with return_size := 8,
                                          data := some (.bytes (encodeLE 8 val)) })
        | _ =>
          match general_set_uint p (encodeLE 4 val) with
          | (r, e, p') => (r, e, some p')
    else if p.data_type = .REAL then
      match p.data with
      | none => (true, none, some { p with return_size := 8 })
      | some _ =>
        match p.data_size with
        | 8 =>
          -- shift = 53 is not < 8*sizeof(uint32_t) = 32: no mantissa check
          if real_shift < 8 * 4 && val >>> real_shift != 0 then
            (false, some .Inexact, some p)
          else
            (true, none, some { p with return_size := 8, data := some (.dbl (val : Int)) })
        | _ => (false, some .UnsupportedReal, some p)
    else (false, some .BadType, some p)

/-- `OSSL_PARAM_get_int64` (out-pointer assumed non-NULL, cf.
`OSSL_PARAM_get_int32`). -/
def OSSL_PARAM_get_int64 (pOpt : Option OSSLParam) :
    Bool × Option ErrKind × Option Int × Option OSSLParam :=
  let r : Bool × Option ErrKind × Option Int :=
    match pOpt with
    | none => (false, some .NullArgument, none)
    | some p =>
      match p.data with
      | none => (false, some .NullArgument, none)
      | some b =>
        if p.data_type = .INTEGER then
          match p.data_size, b with
          | 4, .bytes bs => (true, none, some (fromTwos 4 (decodeLE (bs.take 4))))
          | 8, .bytes bs => (true, none, some (fromTwos 8 (decodeLE (bs.take 8))))
          | _, _ =>
            match general_get_int p (List.replicate 8 0) with
            | (r, e, out) => (r, e, if r then some (fromTwos 8 (decodeLE out)) else none)
        else if p.data_type = .UNSIGNED_INTEGER then
          match p.data_size, b with
          | 4, .bytes bs => (true, none, some (decodeLE (bs.take 4) : Int))
          | 8, .bytes bs =>
            let u64 := decodeLE (bs.take 8)
            if u64 ≤ INT64_MAX.toNat then (true, none, some (u64 : Int))
            else (false, some .OutOfRange, none)
          | _, _ =>
            match general_get_int p (List.replicate 8 0) with
            | (r, e, out) => (r, e, if r then some (fromTwos 8 (decodeLE out)) else none)
        else if p.data_type = .REAL then
          match p.data_size, b with
          | 8, .dbl d =>
            -- d >= INT64_MIN && d < (double)(INT64_MAX - 65535) + 65536.0
            -- && d == (int64_t)d; the float bound evaluates exactly to 2^63
            if INT64_MIN ≤ d ∧ d < 2 ^ 63 then (true, none, some d)
            else (false, some .Inexact, none)
          | 8, .bytes _ => (false, some .Inexact, none)
          | _, _ => (false, some .UnsupportedReal, none)
        else (false, some .BadType, none)
  (r.1, r.2.1, r.2.2, pOpt)

/-- `OSSL_PARAM_set_int64`. -/
def OSSL_PARAM_set_int64 (pOpt : Option OSSLParam) (val : Int) :
    Bool × Option ErrKind × Option OSSLParam :=
  match pOpt with
  | none => (false, some .NullArgument, none)
  | some p0 =>
    let p := { p0 with return_size := 0 }
    if p.data_type = .INTEGER then
      match p.data with
      | none => (true, none, some { p with return_size := 8 })   -- expected size
      | some _ =>
        match p.data_size with
        | 4 =>
          if INT32_MIN ≤ val ∧ val ≤ INT32_MAX then
            (true, none, some { p with return_size := 4,
                                       data := some (.bytes (encodeLE 4 (toTwos 4 val))) })
          else (false, some .OutOfRange, some p)
        | 8 => (true, none, some { p with return_size := 8,
                                          data := some (.bytes (encodeLE 8 (toTwos 8 val))) })
        | _ =>
          match general_set_int p (encodeLE 8 (toTwos 8 val)) with
          | (r, e, p') => (r, e, some p')
    else if p.data_type = .UNSIGNED_INTEGER ∧ 0 ≤ val then
      match p.data with
      | none => (true, none, some { p with return_size := 8 })   -- expected size
      | some _ =>
        match p.data_size with
        | 4 =>
          if val ≤ (UINT32_MAX : Int) then
            (true, none, some { p with return_size := 4,
                                       data := some (.bytes (encodeLE 4 (toTwos 4 val))) })
          else (false, some .OutOfRange, some p)
        | 8 => (true, none, some { p with return_size := 8,
                                          data := some (.bytes (encodeLE 8 (toTwos 8 val))) })
        | _ =>
          match general_set_int p (encodeLE 8 (toTwos 8 val)) with
          | (r, e, p') => (r, e, some p')
    else if p.data_type = .REAL then
      match p.data with
      | none => (true, none, some { p with return_size := 8 })
      | some _ =>
        match p.data_size with
        | 8 =>
          -- u64 = val < 0 ? -val : val; if ((u64 >> real_shift()) == 0) store
          if val.natAbs >>> real_shift = 0 then
            (true, none, some { p with return_size := 8, data := some (.dbl val) })
          else (false, some .Inexact, some p)
        | _ => (false, some .UnsupportedReal, some p)
    else (false, some .BadType, some p)

/-- `OSSL_PARAM_get_uint64` (out-pointer assumed non-NULL, cf.
`OSSL_PARAM_get_int32`). -/
def OSSL_PARAM_get_uint64 (pOpt : Option OSSLParam) :
    Bool × Option ErrKind × Option Nat × Option OSSLParam :=
  let r : Bool × Option ErrKind × Option Nat :=
    match pOpt with
    | none => (false, some .NullArgument, none)
    | some p =>
      match p.data with
      | none => (false, some .NullArgument, none)
      | some b =>
        if p.data_type = .UNSIGNED_INTEGER then
          match p.data_size, b with
          | 4, .bytes bs => (true, none, some (decodeLE (bs.take 4)))
          | 8, .bytes bs => (true, none, some (decodeLE (bs.take 8)))
          | _, _ =>
            match general_get_uint p (List.replicate 8 0) with
            | (r, e, out) => (r, e, if r then some (decodeLE out) else none)
        else if p.data_type = .INTEGER then
          match p.data_size, b with
          | 4, .bytes bs =>
            let i32 := fromTwos 4 (decodeLE (bs.take 4))
            if 0 ≤ i32 then (true, none, some i32.toNat)
            else (false, some .UnsignedNegative, none)
          | 8, .bytes bs =>
            let i64 := fromTwos 8 (decodeLE (bs.take 8))
            if 0 ≤ i64 then (true, none, some i64.toNat)
            else (false, some .UnsignedNegative, none)
          | _, _ =>
            match general_get_uint p (List.replicate 8 0) with
            | (r, e, out) => (r, e, if r then some (decodeLE out) else none)
        else if p.data_type = .REAL then
          match p.data_size, b with
          | 8, .dbl d =>
            -- d >= 0 && d < (double)(UINT64_MAX - 65535) + 65536.0
            -- && d == (uint64_t)d; the float bound evaluates exactly to 2^64
            if 0 ≤ d ∧ d < 2 ^ 64 then (true, none, some d.toNat)
            else (false, some .Inexact, none)
          | 8, .bytes _ => (false, some .Inexact, none)
          | _, _ => (false, some .UnsupportedReal, none)
        else (false, some .BadType, none)
  (r.1, r.2.1, r.2.2, pOpt)

/-- `OSSL_PARAM_set_uint64`.  The source's REAL branch has no
`data == NULL` size-query check and would dereference NULL; that undefined
behaviour is modelled as a failure without a raised error. -/
def OSSL_PARAM_set_uint64 (pOpt : Option OSSLParam) (val : Nat) :
    Bool × Option ErrKind × Option OSSLParam :=
  match pOpt with
  | none => (false, some .NullArgument, none)
  | some p0 =>
    let p := { p0 with return_size := 0 }
    if p.data_type = .UNSIGNED_INTEGER then
      match p.data with
      | none => (true, none, some { p with return_size := 8 })   -- expected size
      | some _ =>
        match p.data_size with
        | 4 =>
          if val ≤ UINT32_MAX then
            (true, none, some { p with return_size := 4,
                                       data := some (.bytes (encodeLE 4 val)) })
          else (false, some .OutOfRange, some p)
        | 8 => (true, none, some { p with return_size := 8,
                                          data := some (.bytes (encodeLE 8 val)) })
        | _ =>
          match general_set_uint p (encodeLE 8 val) with
          | (r, e, p') => (r, e, some p')
    else if p.data_type = .INTEGER then
      match p.data with
      | none => (true, none, some { p with return_size := 8 })   -- expected size
      | some _ =>
        match p.data_size with
        | 4 =>
          if val ≤ INT32_MAX.toNat then
            (true, none, some { p with return_size := 4,
                                       data := some (.bytes (encodeLE 4 val)) })
          else (false, some .OutOfRange, some p)
        | 8 =>
          if val ≤ INT64_MAX.toNat then
            (true, none, some { p with return_size := 8,
                                       data := some (.bytes (encodeLE 8 val)) })
          else (false, some .OutOfRange, some p)
        | _ =>
          match general_set_uint p (encodeLE 8 val) with
          | (r, e, p') => (r, e, some p')
    else if p.data_type = .REAL then
      match p.data_size with
      | 8 =>
        if val >>> real_shift = 0 then
          match p.data with
          | some _ => (true, none, some { p with return_size := 8,
                                                 data := some (.dbl (val : Int)) })
          | none => (false, none, some p)   -- NULL dereference in the source
        else (false, some .Inexact, some p)
      | _ => (false, some .UnsupportedReal, some p)
    else (false, some .BadType, some p)

/-- Modelled from the spec: `BN_is_negative` (crypto/bn, not part of this
excerpt); a BIGNUM is modelled by its exact integer value. -/
def BN_is_negative (v : Int) : Bool := v < 0

/-- Modelled from the spec: `BN_num_bytes` (crypto/bn, not part of this
excerpt); the number of bytes needed for the magnitude of the value, 0 for
zero. -/
def BN_num_bytes (v : Int) : Nat :=
  if v = 0 then 0 else (Nat.log2 v.natAbs + 1 + 7) / 8

/-- `OSSL_PARAM_set_BN`.  The `BN_bn2nativepad` / `BN_signed_bn2native`
writes (crypto/bn, not part of this excerpt) are modelled from the spec as
the padded little-endian unsigned, resp. two's-complement, encoding of the
value in `data_size` bytes; their overflow returns cannot occur because the
capacity was checked (`bytes ≤ data_size`). -/
def OSSL_PARAM_set_BN (pOpt : Option OSSLParam) (valOpt : Option Int) :
    Bool × Option ErrKind × Option OSSLParam :=
  match pOpt with
  | none => (false, some .NullArgument, none)
  | some p0 =>
    let p := { p0 with return_size := 0 }
    match valOpt with
    | none => (false, some .NullArgument, some p)
    | some val =>
      if p.data_type = .UNSIGNED_INTEGER ∧ BN_is_negative val then
        (false, some .BadType, some p)
      else
        -- one extra byte of sign-extension space for signed numbers, and at
        -- least one byte so zero is properly set
        let bytes0 := BN_num_bytes val
        let bytes1 := if p.data_type = .INTEGER then bytes0 + 1 else bytes0
        let bytes := if bytes1 = 0 then 1 else bytes1
        match p.data with
        | none => (true, none, some { p with return_size := bytes })
        | some _ =>
          if bytes ≤ p.data_size then
            match p.data_type with
            | .UNSIGNED_INTEGER =>
              (true, none, some { p with return_size := p.data_size,
                                         data := some
                                           (.bytes (encodeLE p.data_size val.toNat)) })
            | .INTEGER =>
              (true, none, some { p with return_size := p.data_size,
                                         data := some
                                           (.bytes (encodeLE p.data_size
                                             (toTwos p.data_size val))) })
            | _ => (false, some .BadType, some p)
          else (false, some .TooSmall, some { p with return_size := bytes })

/-- Modelled from the spec: `OPENSSL_strnlen` (crypto/o_str.c, not part of
this excerpt); the length of the string scanned for a terminator, at most
`maxlen`. -/
def OPENSSL_strnlen (bs : Bytes) (maxlen : Nat) : Nat :=
  ((bs.take maxlen).takeWhile (fun b => b != 0)).length

/-- Result of `get_string_internal`: success flag, raised error, the state of
the caller's `char **val` slot (`none` = the pointer argument itself was
NULL), the value of `*max_len` and the value written through `used_len` when
that out-pointer was supplied. -/
structure GetStrResult where
  ok : Bool
  err : Option ErrKind
  val : Option (Option Bytes)
  max_len : Nat
  used_len : Option Nat
deriving DecidableEq, Repr

/-- `get_string_internal`.  `val = some none` is a caller asking for an
allocated buffer; fresh `OPENSSL_malloc` memory is modelled as zero bytes
(no caller under proof reads a byte it did not write). -/
def get_string_internal (pOpt : Option OSSLParam) (val : Option (Option Bytes))
    (max_len : Nat) (used_len_present : Bool) (type : DataType) : GetStrResult :=
  if (val = none ∧ used_len_present = false) ∨ pOpt = none then
    ⟨false, some .NullArgument, val, max_len, none⟩
  else
    match pOpt with
    | none => ⟨false, some .NullArgument, val, max_len, none⟩
    | some p =>
      if p.data_type ≠ type then ⟨false, some .BadType, val, max_len, none⟩
      else
        let sz := p.data_size
        -- if the input size is 0 or the string needs NUL termination,
        -- allocate an extra byte
        let alloc_sz := sz + (if type = .UTF8_STRING ∨ sz = 0 then 1 else 0)
        let used : Option Nat := if used_len_present then some sz else none
        match p.data with
        | none => ⟨false, some .NullArgument, val, max_len, used⟩
        | some b =>
          match val with
          | none => ⟨true, none, none, max_len, used⟩
          | some cur0 =>
            match (match cur0 with
                   | none => (List.replicate alloc_sz 0, alloc_sz)
                   | some buf => (buf, max_len)) with
            | (cur, max_len') =>
              if max_len' < sz then ⟨false, some .TooSmall, some (some cur), max_len', used⟩
              else ⟨true, none, some (some (b.asBytes.take sz ++ cur.drop sz)), max_len', used⟩

/-- `OSSL_PARAM_get_utf8_string`.  The `char **val` pointer is assumed
non-NULL; `val` is the buffer `*val` references (`none` = request an
allocation) and `max_len` its capacity.  Returns the state of `*val` after
the call. -/
def OSSL_PARAM_get_utf8_string (pOpt : Option OSSLParam) (valIn : Option Bytes)
    (max_len : Nat) : Bool × Option ErrKind × Option Bytes :=
  let r := get_string_internal pOpt (some valIn) max_len false .UTF8_STRING
  let val' : Option Bytes := match r.val with
    | some v => v
    | none => valIn
  if r.ok = false then (false, r.err, val')
  else
    match pOpt with
    | none => (false, r.err, val')   -- unreachable: the internal call failed
    | some p =>
      match p.data with
      | none => (false, some .NullArgument, val')   -- unreachable likewise
      | some b =>
        -- defensive re-scan: when data_size is out of bounds for the
        -- destination, measure the true string length before placing NUL
        let dl0 := p.data_size
        let dl := if r.max_len ≤ dl0 then OPENSSL_strnlen b.asBytes dl0 else dl0
        if r.max_len ≤ dl then (false, some .NoSpaceNul, val')
        else
          match val' with
          | none => (true, none, none)   -- unreachable: a successful copy left a buffer
          | some buf => (true, none, some (buf.set dl 0))

/-- `set_string_internal`. -/
def set_string_internal (p : OSSLParam) (val : Bytes) (len : Nat)
    (type : DataType) : Bool × Option ErrKind × OSSLParam :=
  if p.data_type ≠ type then (false, some .BadType, p)
  else
    let p := { p with return_size := len }
    match p.data with
    | none => (true, none, p)
    | some b =>
      if p.data_size < len then (false, some .TooSmall, p)
      else
        let written := val.take len ++ b.asBytes.drop len
        -- if possible within data_size, add a NUL terminator byte
        let written := if type = .UTF8_STRING ∧ len < p.data_size
                       then written.set len 0 else written
        (true, none, { p with data := some (.bytes written) })

/-- `OSSL_PARAM_set_utf8_string`.  `val` holds the bytes of the C string up
to (not including) its terminator, so `strlen(val)` is `val.length`. -/
def OSSL_PARAM_set_utf8_string (pOpt : Option OSSLParam) (valOpt : Option Bytes) :
    Bool × Option ErrKind × Option OSSLParam :=
  match pOpt, valOpt with
  | none, _ => (false, some .NullArgument, none)
  | some p, none => (false, some .NullArgument, some p)
  | some p0, some val =>
    let p := { p0 with return_size := 0 }
    match set_string_internal p val val.length .UTF8_STRING with
    | (r, e, p') => (r, e, some p')

/-- `OSSL_PARAM_set_octet_string`; the `len` argument is `val.length`. -/
def OSSL_PARAM_set_octet_string (pOpt : Option OSSLParam) (valOpt : Option Bytes) :
    Bool × Option ErrKind × Option OSSLParam :=
  match pOpt, valOpt with
  | none, _ => (false, some .NullArgument, none)
  | some p, none => (false, some .NullArgument, some p)
  | some p0, some val =>
    let p := { p0 with return_size := 0 }
    match set_string_internal p val val.length .OCTET_STRING with
    | (r, e, p') => (r, e, some p')

/-- The octet-string concatenation of a parameter list: the bytes appended by
the `setbuf_fromparams` loop (`data_size` bytes of every entry with a present
buffer and non-zero size), or `none` as soon as an entry is not an
OCTET_STRING. -/
def concatOctets : List OSSLParam → Option Bytes
  | [] => some []
  | p :: ps =>
    if p.data_type ≠ .OCTET_STRING then none
    else
      match concatOctets ps with
      | none => none
      | some rest =>
        match p.data with
        | some b => if p.data_size ≠ 0 then some (b.asBytes.take p.data_size ++ rest)
                    else some rest
        | none => some rest

/-- `setbuf_fromparams`.  Modelled from the spec: the WPACKET packet writer
(internal/packet.h, not part of this excerpt) is the two-pass accumulator —
`cap = none` is the null sink that only counts (`WPACKET_init_null`),
`cap = some c` the static buffer of capacity `c`
(`WPACKET_init_static_len`); appends past the capacity fail.  Returns
(success, bytes written, total length `*outlen`); `outlen` is the prior value
of `*outlen`, reported back unchanged on failure. -/
def setbuf_fromparams (ps : List OSSLParam) (cap : Option Nat) (outlen : Nat) :
    Bool × Bytes × Nat :=
  match concatOctets ps with
  | none => (false, [], outlen)
  | some bs =>
    match cap with
    | none => (true, [], bs.length)
    | some c => if bs.length ≤ c then (true, bs, bs.length) else (false, [], outlen)

/-- `ossl_param_get1_concat_octet_string`.  `out`/`out_len` are the caller's
result slots (`*out`, `*out_len`); on success the previous `*out` allocation
is released (`OPENSSL_clear_free`) and replaced. -/
def ossl_param_get1_concat_octet_string (ps : List OSSLParam) (out : Option Bytes)
    (out_len : Nat) : Bool × Option Bytes × Nat :=
  if ps.length = 0 then (true, out, out_len)
  else
    -- first pass: calculate the total size
    match setbuf_fromparams ps none 0 with
    | (ok1, _, sz) =>
      if ok1 = false then (false, out, out_len)
      else if sz = 0 then
        -- special case zero length: a fresh 1-byte zeroed allocation
        (true, some (List.replicate 1 0), 0)
      else
        -- second pass: the real copy into the fresh allocation of size sz
        match setbuf_fromparams ps (some sz) sz with
        | (ok2, res, sz2) =>
          if ok2 = false then (false, out, out_len)
          else (true, some res, sz2)

/-- The scan of `OSSL_PARAM_locate`: the position of the first entry whose
key string-compares equal, stopping at the sentinel (`key = none`); running
off the end of the model list is end-of-array. -/
def locate_go (ps : List OSSLParam) (key : String) : Option Nat :=
  match ps with
  | [] => none
  | p :: rest =>
    match p.key with
    | none => none
    | some k => if k = key then some 0 else (locate_go rest key).map (· + 1)

/-- `OSSL_PARAM_locate`: linear scan by `strcmp` (exact, case-sensitive
string equality).  The source returns the pointer `&ps[i]`; the model
returns the index `i`. -/
def OSSL_PARAM_locate (psOpt : Option (List OSSLParam)) (keyOpt : Option String) :
    Option Nat :=
  match psOpt, keyOpt with
  | some ps, some key => locate_go ps key
  | _, _ => none

/-- `OSSL_PARAM_modified`: non-NULL and `return_size` moved off the
`OSSL_PARAM_UNMODIFIED` sentinel. -/
def OSSL_PARAM_modified (pOpt : Option OSSLParam) : Bool :=
  match pOpt with
  | none => false
  | some p => p.return_size != OSSL_PARAM_UNMODIFIED

/-- The loop of `OSSL_PARAM_set_all_unmodified`: reset `return_size` of
every entry up to the sentinel. -/
def set_all_unmodified_go : List OSSLParam → List OSSLParam
  | [] => []
  | p :: rest =>
    match p.key with
    | none => p :: rest
    | some _ => { p with return_size := OSSL_PARAM_UNMODIFIED } :: set_all_unmodified_go rest

/-- `OSSL_PARAM_set_all_unmodified`: a no-op on an absent sequence. -/
def OSSL_PARAM_set_all_unmodified (psOpt : Option (List OSSLParam)) :
    Option (List OSSLParam) :=
  match psOpt with
  | none => none
  | some ps => some (set_all_unmodified_go ps)

set_option maxRecDepth 2048 in
/-- Top bit of a byte via the source's mask: non-zero iff the byte is at
least 0x80. -/
theorem land128_ne_zero : ∀ b < 256, (128 &&& b ≠ 0 ↔ 128 ≤ b) := by decide

set_option maxRecDepth 2048 in
/-- Sign-bit test after xor with the 0xff pad. -/
theorem xor255_land128 : ∀ b < 256, ((255 ^^^ b) &&& 128 = 0 ↔ 128 ≤ b) := by decide

set_option maxRecDepth 2048 in
/-- Sign-bit test of a byte against the 0x00 pad. -/
theorem land128_eq_zero : ∀ b < 256, (b &&& 128 = 0 ↔ b < 128) := by decide

/-- Concrete descriptors reused by the concrete-instance theorems below. -/
def pI4c : OSSLParam :=
  { key := some "k", data_type := .INTEGER, data := some (.bytes [5, 0, 0, 0]),
    data_size := 4, return_size := OSSL_PARAM_UNMODIFIED }

def pU4c : OSSLParam :=
  { key := some "k", data_type := .UNSIGNED_INTEGER, data := some (.bytes [9, 9, 9, 9]),
    data_size := 4, return_size := OSSL_PARAM_UNMODIFIED }

def pR8c : OSSLParam :=
  { key := some "r", data_type := .REAL, data := some (.dbl 0),
    data_size := 8, return_size := OSSL_PARAM_UNMODIFIED }

/-- C10: the modified/unmodified interface is total on absent inputs:
`OSSL_PARAM_modified` of an absent descriptor is `false` (not an error),
`OSSL_PARAM_set_all_unmodified` of an absent sequence is a no-op, and for a
present descriptor `modified` holds iff `return_size` differs from the
`OSSL_PARAM_UNMODIFIED` sentinel. -/
theorem modified_total_on_absent :
    OSSL_PARAM_modified none = false
  ∧ OSSL_PARAM_set_all_unmodified none = none
  ∧ ∀ p : OSSLParam,
      (OSSL_PARAM_modified (some p) = true ↔ p.return_size ≠ OSSL_PARAM_UNMODIFIED) := by
  refine ⟨rfl, rfl, fun p => ?_⟩
  simp [OSSL_PARAM_modified]

/-- C4 (counterexample): a successful typed get leaves the descriptor — in
particular `return_size` — exactly as it was: the claim that every get
attempt assigns `return_size` fails on this input, whose `return_size` is
still the untouched sentinel after the call. -/
theorem get_does_not_assign_return_size :
    (OSSL_PARAM_get_int32 (some pI4c)).1 = true
  ∧ (OSSL_PARAM_get_int32 (some pI4c)).2.2.2 = some pI4c
  ∧ OSSL_PARAM_modified (some pI4c) = false := by
  refine ⟨?_, rfl, by decide⟩
  decide

/-- C4 (amended): every set accessor assigns `return_size` on every call
path of a non-null descriptor (the result is independent of the prior
`return_size`), while a get accessor — taking `const OSSL_PARAM *` — leaves
the descriptor, hence `return_size`, unchanged on every path. -/
theorem return_size_assignment :
    (∀ (p : OSSLParam) (r1 r2 : Nat) (v : Int),
       (OSSL_PARAM_set_int32 (some { p with return_size := r1 }) v).2.2 =
         (OSSL_PARAM_set_int32 (some { p with return_size := r2 }) v).2.2)
  ∧ (∀ (p : OSSLParam) (r1 r2 : Nat) (val : Bytes),
       (general_set_int { p with return_size := r1 } val).2.2 =
         (general_set_int { p with return_size := r2 } val).2.2)
  ∧ (∀ pOpt : Option OSSLParam, (OSSL_PARAM_get_int32 pOpt).2.2.2 = pOpt) := by
  refine ⟨fun p r1 r2 v => ?_, fun p r1 r2 val => ?_, fun pOpt => rfl⟩
  · cases p; rfl
  · cases p; rfl

/-- C3 (counterexample): storing the integer 2^53 into an 8-byte REAL
descriptor does not succeed — both `OSSL_PARAM_set_int64` and
`OSSL_PARAM_set_uint64` reject it with the inexact-representation error
(the guard admits only values whose magnitude shifted by 53 bits is zero,
i.e. magnitudes up to 2^53 - 1). -/
theorem pow53_real_set_fails :
    (OSSL_PARAM_set_int64 (some pR8c) (2 ^ 53)).1 = false
  ∧ (OSSL_PARAM_set_int64 (some pR8c) (2 ^ 53)).2.1 = some ErrKind.Inexact
  ∧ (OSSL_PARAM_set_uint64 (some pR8c) (2 ^ 53)).1 = false
  ∧ (OSSL_PARAM_set_uint64 (some pR8c) (2 ^ 53)).2.1 = some ErrKind.Inexact := by
  refine ⟨?_, ?_, ?_, ?_⟩ <;> decide

/-- C3 (amended): for an 8-byte REAL destination, `OSSL_PARAM_set_int64` and
`OSSL_PARAM_set_uint64` store 2^53 - 1 exactly (writing the double and
`return_size` 8), while both 2^53 and 2^53 + 1 fail with the InexactValue
error and leave the buffer untouched. -/
theorem real_mantissa_boundary :
    ∀ (k : Option String) (b : BufVal) (rs : Nat),
      (OSSL_PARAM_set_int64 (some ⟨k, .REAL, some b, 8, rs⟩) (2 ^ 53 - 1) =
        (true, none, some ⟨k, .REAL, some (.dbl (2 ^ 53 - 1)), 8, 8⟩))
    ∧ (OSSL_PARAM_set_int64 (some ⟨k, .REAL, some b, 8, rs⟩) (2 ^ 53) =
        (false, some .Inexact, some ⟨k, .REAL, some b, 8, 0⟩))
    ∧ (OSSL_PARAM_set_int64 (some ⟨k, .REAL, some b, 8, rs⟩) (2 ^ 53 + 1) =
        (false, some .Inexact, some ⟨k, .REAL, some b, 8, 0⟩))
    ∧ (OSSL_PARAM_set_uint64 (some ⟨k, .REAL, some b, 8, rs⟩) (2 ^ 53 - 1) =
        (true, none, some ⟨k, .REAL, some (.dbl (2 ^ 53 - 1)), 8, 8⟩))
    ∧ (OSSL_PARAM_set_uint64 (some ⟨k, .REAL, some b, 8, rs⟩) (2 ^ 53) =
        (false, some .Inexact, some ⟨k, .REAL, some b, 8, 0⟩))
    ∧ (OSSL_PARAM_set_uint64 (some ⟨k, .REAL, some b, 8, rs⟩) (2 ^ 53 + 1) =
        (false, some .Inexact, some ⟨k, .REAL, some b, 8, 0⟩)) := by
  intro k b rs
  refine ⟨?_, ?_, ?_, ?_, ?_, ?_⟩ <;>
    simp [OSSL_PARAM_set_int64, OSSL_PARAM_set_uint64, real_shift]

/-- C2 (counterexample): storing the negative boundary values through the
fixed-width signed setters into an UNSIGNED_INTEGER descriptor fails, but
the raised error is CRYPTO_R_PARAM_OF_INCOMPATIBLE_TYPE (`BadType`), not the
NegativeUnsignedValue kind the claim names: the `val >= 0` test is folded
into the type dispatch, so a negative value falls through to the
incompatible-type diagnosis. -/
theorem negative_to_unsigned_raises_bad_type :
    (OSSL_PARAM_set_int32 (some pU4c) (-1)).1 = false
  ∧ (OSSL_PARAM_set_int32 (some pU4c) (-1)).2.1 = some ErrKind.BadType
  ∧ (OSSL_PARAM_set_int32 (some pU4c) INT32_MIN).2.1 = some ErrKind.BadType
  ∧ (OSSL_PARAM_set_int64 (some pU4c) (-1)).2.1 = some ErrKind.BadType
  ∧ (OSSL_PARAM_set_int64 (some pU4c) INT64_MIN).2.1 = some ErrKind.BadType
  ∧ ErrKind.BadType ≠ ErrKind.UnsignedNegative := by
  refine ⟨?_, ?_, ?_, ?_, ?_, ?_⟩ <;> decide

/-- C2 (amended): a signed set into an UNSIGNED_INTEGER descriptor of a
negative value always fails without touching the buffer; the fixed-width
accessors `OSSL_PARAM_set_int32`/`OSSL_PARAM_set_int64` report the
IncompatibleType error, while the general signed set path
(`general_set_int`, via `unsigned_from_signed`) reports
NegativeUnsignedValue. -/
theorem negative_to_unsigned_set_fails :
    (∀ (p : OSSLParam) (v : Int), p.data_type = .UNSIGNED_INTEGER → v < 0 →
       OSSL_PARAM_set_int32 (some p) v =
         (false, some .BadType, some { p with return_size := 0 }))
  ∧ (∀ (p : OSSLParam) (v : Int), p.data_type = .UNSIGNED_INTEGER → v < 0 →
       OSSL_PARAM_set_int64 (some p) v =
         (false, some .BadType, some { p with return_size := 0 }))
  ∧ (∀ (p : OSSLParam) (dst : Bytes) (b0 b1 b2 : Nat),
       p.data_type = .UNSIGNED_INTEGER → p.data = some (.bytes dst) →
       b0 < 256 → b1 < 256 → b2 < 256 →
       fromTwos 3 (decodeLE [b0, b1, b2]) < 0 →
       general_set_int p [b0, b1, b2] =
         (false, some .UnsignedNegative, { p with return_size := 3 })) := by
  refine ⟨fun p v ht hv => ?_, fun p v ht hv => ?_, fun p dst b0 b1 b2 ht hd h0 h1 h2 hneg => ?_⟩
  · have hnotle : ¬ (0 ≤ v) := by omega
    simp [OSSL_PARAM_set_int32, ht, hnotle]
  · have hnotle : ¬ (0 ≤ v) := by omega
    simp [OSSL_PARAM_set_int64, ht, hnotle]
  · have hb2 : 128 ≤ b2 := by
      simp only [fromTwos, decodeLE] at hneg
      by_cases hlt : (b0 + 256 * (b1 + 256 * (b2 + 256 * 0)) : Nat) < 2 ^ (8 * 3 - 1)
      · simp [hlt] at hneg; omega
      · omega
    have hms : is_negative IS_BIG_ENDIAN [b0, b1, b2] = true := by
      simp [is_negative, IS_BIG_ENDIAN]
      exact fun h => absurd ((land128_ne_zero b2 h2).mpr hb2) (by simp [h])
    simp [general_set_int, hd, ht, unsigned_from_signed, hms, BufVal.asBytes]

/-- C2 (witness): the amended statement at -1 via both fixed-width setters
and at a 3-byte negative two's-complement source on the general path. -/
theorem negative_to_unsigned_set_fails_witness :
    (OSSL_PARAM_set_int32 (some pU4c) (-1) =
       (false, some .BadType, some { pU4c with return_size := 0 }))
  ∧ (OSSL_PARAM_set_int64 (some pU4c) (-1) =
       (false, some .BadType, some { pU4c with return_size := 0 }))
  ∧ (general_set_int pU4c [255, 255, 255] =
       (false, some .UnsignedNegative, { pU4c with return_size := 3 })) :=
  ⟨negative_to_unsigned_set_fails.1 pU4c (-1) rfl (by decide),
   negative_to_unsigned_set_fails.2.1 pU4c (-1) rfl (by decide),
   negative_to_unsigned_set_fails.2.2 pU4c [9, 9, 9, 9] 255 255 255 rfl rfl
     (by decide) (by decide) (by decide) (by decide)⟩

/-- The scan of `locate` finds index `i` exactly when entry `i` carries the
key and every earlier entry carries a different, non-absent key (reading past
the end of the list yields the end sentinel). -/
theorem locate_go_iff (key : String) : ∀ (ps : List OSSLParam) (i : Nat),
    locate_go ps key = some i ↔
      ((ps.getD i OSSL_PARAM_construct_end).key = some key ∧
       ∀ j < i, ∃ kj, (ps.getD j OSSL_PARAM_construct_end).key = some kj ∧ kj ≠ key) := by
  intro ps
  induction ps with
  | nil =>
    intro i
    simp [locate_go, OSSL_PARAM_construct_end]
  | cons p rest ih =>
    intro i
    have hsplit : ∀ n : Nat,
        (∀ j < n + 1, ∃ kj,
            ((p :: rest).getD j OSSL_PARAM_construct_end).key = some kj ∧ kj ≠ key) ↔
          ((∃ kj, p.key = some kj ∧ kj ≠ key) ∧
           ∀ j < n, ∃ kj, (rest.getD j OSSL_PARAM_construct_end).key = some kj ∧ kj ≠ key) := by
      intro n
      constructor
      · intro h
        refine ⟨?_, fun j hj => h (j + 1) (by omega)⟩
        rcases h 0 (by omega) with ⟨kj, hkj, hne⟩
        exact ⟨kj, by simpa using hkj, hne⟩
      · rintro ⟨⟨kj, hkj, hne⟩, h⟩ j hj
        cases j with
        | zero => exact ⟨kj, by simpa using hkj, hne⟩
        | succ m => exact h m (by omega)
    cases hk : p.key with
    | none =>
      simp only [locate_go, hk]
      cases i with
      | zero => simp [hk]
      | succ n =>
        constructor
        · intro h
          exact absurd h (by simp)
        · rintro ⟨hkey, hall⟩
          rcases hall 0 (by omega) with ⟨kj, hkj, _⟩
          simp [hk] at hkj
    | some k =>
      by_cases hkey : k = key
      · subst hkey
        simp only [locate_go, hk, if_pos rfl]
        cases i with
        | zero => simp [hk]
        | succ n =>
          constructor
          · intro h
            exact absurd h (by simp)
          · rintro ⟨_, hall⟩
            rcases hall 0 (by omega) with ⟨kj, hkj, hne⟩
            simp [hk] at hkj
            exact absurd hkj.symm hne
      · simp only [locate_go, hk, if_neg hkey]
        cases i with
        | zero =>
          simp [hk, hkey]
        | succ n =>
          rw [hsplit n]
          simp only [List.getD_cons_succ]
          constructor
          · intro h
            rcases Option.map_eq_some'.mp h with ⟨m, hm, hmn⟩
            have hn : m = n := by omega
            rw [hn] at hm
            rcases (ih n).mp hm with ⟨h1, h2⟩
            exact ⟨h1, ⟨k, hk, hkey⟩, h2⟩
          · rintro ⟨h1, _, h2⟩
            have := (ih n).mpr ⟨h1, h2⟩
            simp [this]

/-- C9: `locate` is a linear scan with case-sensitive exact string equality:
it reports the index of the first descriptor whose key matches (so with two
descriptors sharing a key it is the earlier one), and reports not-found on an
absent sequence, an absent key, or when no entry matches before the
sentinel. -/
theorem locate_first_match :
    (∀ k, OSSL_PARAM_locate none k = none)
  ∧ (∀ ps, OSSL_PARAM_locate (some ps) none = none)
  ∧ (∀ (ps : List OSSLParam) (key : String) (i : Nat),
      OSSL_PARAM_locate (some ps) (some key) = some i ↔
        ((ps.getD i OSSL_PARAM_construct_end).key = some key ∧
         ∀ j < i, ∃ kj, (ps.getD j OSSL_PARAM_construct_end).key = some kj ∧ kj ≠ key)) := by
  refine ⟨fun k => ?_, fun ps => rfl, fun ps key i => ?_⟩
  · cases k <;> rfl
  · simpa [OSSL_PARAM_locate] using locate_go_iff key ps i

/-- A parameter of a type other than OCTET_STRING poisons the whole
concatenation pass. -/
theorem concatOctets_eq_none_of_bad {ps : List OSSLParam} {p : OSSLParam}
    (hp : p ∈ ps) (ht : p.data_type ≠ .OCTET_STRING) : concatOctets ps = none := by
  induction ps with
  | nil => cases hp
  | cons q rest ih =>
    rcases List.mem_cons.mp hp with hq | hq
    · subst hq
      simp [concatOctets, ht]
    · by_cases hqt : q.data_type ≠ .OCTET_STRING
      · simp [concatOctets, hqt]
      · simp [concatOctets, hqt, ih hq]

/-- OCTET_STRING parameters that are all absent or zero-sized accumulate
nothing. -/
theorem concatOctets_eq_nil_of_empty {ps : List OSSLParam}
    (ht : ∀ p ∈ ps, p.data_type = .OCTET_STRING)
    (he : ∀ p ∈ ps, p.data = none ∨ p.data_size = 0) :
    concatOctets ps = some [] := by
  induction ps with
  | nil => rfl
  | cons q rest ih =>
    have hqt := ht q (by simp)
    have hrest := ih (fun p hp => ht p (by simp [hp])) (fun p hp => he p (by simp [hp]))
    rcases he q (by simp) with hd | hs
    · simp [concatOctets, hqt, hrest, hd]
    · cases hd : q.data with
      | none => simp [concatOctets, hqt, hrest, hd]
      | some b => simp [concatOctets, hqt, hrest, hd, hs]

/-- C8 (counterexample): with zero descriptors the concatenation helper
returns success but leaves the caller's output untouched — here a prior
3-byte output survives the call, so the output is not zero-length as the
claim states. -/
theorem concat_zero_params_leaves_output :
    ossl_param_get1_concat_octet_string [] (some [7, 7, 7]) 3 = (true, some [7, 7, 7], 3)
  ∧ (3 : Nat) ≠ 0 := by
  exact ⟨rfl, by decide⟩

/-- C8 (amended): `ossl_param_get1_concat_octet_string` with zero
descriptors returns success leaving the output slots untouched (it does not
produce a zero-length output); with at least one descriptor, all of type
OCTET_STRING and total length 0, it succeeds with a freshly allocated 1-byte
zeroed buffer and output length 0; and when any descriptor has another type
it fails without allocating (output slots untouched). -/
theorem concat_octet_string_spec :
    (∀ (out : Option Bytes) (out_len : Nat),
       ossl_param_get1_concat_octet_string [] out out_len = (true, out, out_len))
  ∧ (∀ (ps : List OSSLParam) (out : Option Bytes) (out_len : Nat),
       ps ≠ [] →
       (∀ p ∈ ps, p.data_type = .OCTET_STRING) →
       (∀ p ∈ ps, p.data = none ∨ p.data_size = 0) →
       ossl_param_get1_concat_octet_string ps out out_len =
         (true, some (List.replicate 1 0), 0))
  ∧ (∀ (ps : List OSSLParam) (out : Option Bytes) (out_len : Nat) (p : OSSLParam),
       p ∈ ps → p.data_type ≠ .OCTET_STRING →
       ossl_param_get1_concat_octet_string ps out out_len = (false, out, out_len)) := by
  refine ⟨fun out out_len => rfl, fun ps out out_len hne ht he => ?_,
          fun ps out out_len p hp ht => ?_⟩
  · have h := concatOctets_eq_nil_of_empty ht he
    have hlen : ps.length ≠ 0 := by
      cases ps with
      | nil => exact absurd rfl hne
      | cons q rest => simp
    simp [ossl_param_get1_concat_octet_string, hlen, setbuf_fromparams, h]
  · have h := concatOctets_eq_none_of_bad hp ht
    have hlen : ps.length ≠ 0 := by
      cases ps with
      | nil => cases hp
      | cons q rest => simp
    simp [ossl_param_get1_concat_octet_string, hlen, setbuf_fromparams, h]

/-- C8 (witness): the amended statement at concrete inputs — an empty list
with a surviving prior output, a single empty OCTET_STRING descriptor, and a
single INTEGER descriptor. -/
theorem concat_octet_string_spec_witness :
    ossl_param_get1_concat_octet_string
      [{ key := some "a", data_type := .OCTET_STRING, data := none,
         data_size := 0, return_size := 0 }] (some [1, 2]) 2 =
      (true, some (List.replicate 1 0), 0)
  ∧ ossl_param_get1_concat_octet_string
      [{ key := some "a", data_type := .INTEGER, data := none,
         data_size := 0, return_size := 0 }] (some [1, 2]) 2 = (false, some [1, 2], 2) :=
  ⟨concat_octet_string_spec.2.1
      [{ key := some "a", data_type := .OCTET_STRING, data := none,
         data_size := 0, return_size := 0 }] (some [1, 2]) 2
      (by decide) (by decide) (by decide),
   concat_octet_string_spec.2.2
      [{ key := some "a", data_type := .INTEGER, data := none,
         data_size := 0, return_size := 0 }] (some [1, 2]) 2
      { key := some "a", data_type := .INTEGER, data := none,
        data_size := 0, return_size := 0 }
      (by decide) (by decide)⟩

/-- Concrete data-absent descriptors for the size-query statements. -/
def pIN : OSSLParam :=
  { key := some "k", data_type := .INTEGER, data := none,
    data_size := 4, return_size := OSSL_PARAM_UNMODIFIED }

def pUN : OSSLParam :=
  { key := some "k", data_type := .UNSIGNED_INTEGER, data := none,
    data_size := 4, return_size := OSSL_PARAM_UNMODIFIED }

def pSN : OSSLParam :=
  { key := some "k", data_type := .UTF8_STRING, data := none,
    data_size := 4, return_size := OSSL_PARAM_UNMODIFIED }

def pON : OSSLParam :=
  { key := some "k", data_type := .OCTET_STRING, data := none,
    data_size := 4, return_size := OSSL_PARAM_UNMODIFIED }

/-- C6 (counterexample): a set on a data-absent descriptor is not
unconditionally a successful size query — a negative value through
`OSSL_PARAM_set_int32` into a data-absent UNSIGNED_INTEGER descriptor fails
(with the IncompatibleType error) instead of reporting a size. -/
theorem size_query_negative_value_fails :
    (OSSL_PARAM_set_int32 (some pUN) (-1)).1 = false
  ∧ (OSSL_PARAM_set_int32 (some pUN) (-1)).2.1 = some ErrKind.BadType := by
  exact ⟨rfl, rfl⟩

/-- C6 (amended): for every set accessor over integer, string and big-number
types, a set whose descriptor type is compatible with the accessor and value
(nonnegative values for UNSIGNED_INTEGER under the signed setters, a
nonnegative BIGNUM for UNSIGNED_INTEGER) on a data-absent descriptor is a
size query: it succeeds, records the required byte count in `return_size`,
and mutates nothing else. -/
theorem set_on_absent_data_is_size_query :
    (∀ (p : OSSLParam) (v : Int), p.data = none → p.data_type = .INTEGER →
       OSSL_PARAM_set_int32 (some p) v = (true, none, some { p with return_size := 4 }))
  ∧ (∀ (p : OSSLParam) (v : Int), p.data = none → p.data_type = .UNSIGNED_INTEGER → 0 ≤ v →
       OSSL_PARAM_set_int32 (some p) v = (true, none, some { p with return_size := 4 }))
  ∧ (∀ (p : OSSLParam) (v : Int), p.data = none → p.data_type = .INTEGER →
       OSSL_PARAM_set_int64 (some p) v = (true, none, some { p with return_size := 8 }))
  ∧ (∀ (p : OSSLParam) (v : Int), p.data = none → p.data_type = .UNSIGNED_INTEGER → 0 ≤ v →
       OSSL_PARAM_set_int64 (some p) v = (true, none, some { p with return_size := 8 }))
  ∧ (∀ (p : OSSLParam) (v : Nat), p.data = none → p.data_type = .UNSIGNED_INTEGER →
       OSSL_PARAM_set_uint32 (some p) v = (true, none, some { p with return_size := 4 }))
  ∧ (∀ (p : OSSLParam) (v : Nat), p.data = none → p.data_type = .INTEGER →
       OSSL_PARAM_set_uint32 (some p) v = (true, none, some { p with return_size := 4 }))
  ∧ (∀ (p : OSSLParam) (v : Nat), p.data = none → p.data_type = .UNSIGNED_INTEGER →
       OSSL_PARAM_set_uint64 (some p) v = (true, none, some { p with return_size := 8 }))
  ∧ (∀ (p : OSSLParam) (v : Nat), p.data = none → p.data_type = .INTEGER →
       OSSL_PARAM_set_uint64 (some p) v = (true, none, some { p with return_size := 8 }))
  ∧ (∀ (p : OSSLParam) (val : Bytes), p.data = none →
       general_set_int p val = (true, none, { p with return_size := val.length }))
  ∧ (∀ (p : OSSLParam) (val : Bytes), p.data = none →
       general_set_uint p val = (true, none, { p with return_size := val.length }))
  ∧ (∀ (p : OSSLParam) (s : Bytes), p.data = none → p.data_type = .UTF8_STRING →
       OSSL_PARAM_set_utf8_string (some p) (some s) =
         (true, none, some { p with return_size := s.length }))
  ∧ (∀ (p : OSSLParam) (s : Bytes), p.data = none → p.data_type = .OCTET_STRING →
       OSSL_PARAM_set_octet_string (some p) (some s) =
         (true, none, some { p with return_size := s.length }))
  ∧ (∀ (p : OSSLParam) (v : Int), p.data = none →
       ¬(p.data_type = .UNSIGNED_INTEGER ∧ v < 0) →
       OSSL_PARAM_set_BN (some p) (some v) = (true, none, some { p with return_size :=
         (if (if p.data_type = .INTEGER then BN_num_bytes v + 1 else BN_num_bytes v) = 0
          then 1
          else (if p.data_type = .INTEGER then BN_num_bytes v + 1 else BN_num_bytes v)) })) := by
  refine ⟨?_, ?_, ?_, ?_, ?_, ?_, ?_, ?_, ?_, ?_, ?_, ?_, ?_⟩
  · rintro ⟨k, dt, d, ds, rs⟩ v hd ht
    simp only at hd ht; subst hd; subst ht; rfl
  · rintro ⟨k, dt, d, ds, rs⟩ v hd ht hv
    simp only at hd ht; subst hd; subst ht
    simp [OSSL_PARAM_set_int32, hv]
  · rintro ⟨k, dt, d, ds, rs⟩ v hd ht
    simp only at hd ht; subst hd; subst ht; rfl
  · rintro ⟨k, dt, d, ds, rs⟩ v hd ht hv
    simp only at hd ht; subst hd; subst ht
    simp [OSSL_PARAM_set_int64, hv]
  · rintro ⟨k, dt, d, ds, rs⟩ v hd ht
    simp only at hd ht; subst hd; subst ht; rfl
  · rintro ⟨k, dt, d, ds, rs⟩ v hd ht
    simp only at hd ht; subst hd; subst ht; rfl
  · rintro ⟨k, dt, d, ds, rs⟩ v hd ht
    simp only at hd ht; subst hd; subst ht; rfl
  · rintro ⟨k, dt, d, ds, rs⟩ v hd ht
    simp only at hd ht; subst hd; subst ht; rfl
  · rintro ⟨k, dt, d, ds, rs⟩ val hd
    simp only at hd; subst hd; rfl
  · rintro ⟨k, dt, d, ds, rs⟩ val hd
    simp only at hd; subst hd; rfl
  · rintro ⟨k, dt, d, ds, rs⟩ s hd ht
    simp only at hd ht; subst hd; subst ht; rfl
  · rintro ⟨k, dt, d, ds, rs⟩ s hd ht
    simp only at hd ht; subst hd; subst ht; rfl
  · rintro ⟨k, dt, d, ds, rs⟩ v hd hnvu
    simp only at hd; subst hd
    by_cases hdt : dt = DataType.UNSIGNED_INTEGER
    · have hv : ¬ v < 0 := fun h => hnvu ⟨by simpa using hdt, h⟩
      subst hdt
      simp [OSSL_PARAM_set_BN, BN_is_negative, hv]
    · simp [OSSL_PARAM_set_BN, BN_is_negative, hdt]

/-- C6 (witness): the amended size-query statement instantiated for every
accessor at data-absent descriptors. -/
theorem set_on_absent_data_is_size_query_witness :
    OSSL_PARAM_set_int32 (some pIN) (-7) = (true, none, some { pIN with return_size := 4 })
  ∧ OSSL_PARAM_set_int32 (some pUN) 7 = (true, none, some { pUN with return_size := 4 })
  ∧ OSSL_PARAM_set_int64 (some pIN) (-7) = (true, none, some { pIN with return_size := 8 })
  ∧ OSSL_PARAM_set_int64 (some pUN) 7 = (true, none, some { pUN with return_size := 8 })
  ∧ OSSL_PARAM_set_uint32 (some pUN) 7 = (true, none, some { pUN with return_size := 4 })
  ∧ OSSL_PARAM_set_uint32 (some pIN) 7 = (true, none, some { pIN with return_size := 4 })
  ∧ OSSL_PARAM_set_uint64 (some pUN) 7 = (true, none, some { pUN with return_size := 8 })
  ∧ OSSL_PARAM_set_uint64 (some pIN) 7 = (true, none, some { pIN with return_size := 8 })
  ∧ general_set_int pIN [1, 2, 3] = (true, none, { pIN with return_size := 3 })
  ∧ general_set_uint pUN [1, 2, 3] = (true, none, { pUN with return_size := 3 })
  ∧ OSSL_PARAM_set_utf8_string (some pSN) (some [104, 105]) =
      (true, none, some { pSN with return_size := 2 })
  ∧ OSSL_PARAM_set_octet_string (some pON) (some [104, 105]) =
      (true, none, some { pON with return_size := 2 })
  ∧ OSSL_PARAM_set_BN (some pIN) (some (-256)) =
      (true, none, some { pIN with return_size := 3 }) := by
  refine ⟨set_on_absent_data_is_size_query.1 pIN (-7) rfl rfl,
          set_on_absent_data_is_size_query.2.1 pUN 7 rfl rfl (by decide),
          set_on_absent_data_is_size_query.2.2.1 pIN (-7) rfl rfl,
          set_on_absent_data_is_size_query.2.2.2.1 pUN 7 rfl rfl (by decide),
          set_on_absent_data_is_size_query.2.2.2.2.1 pUN 7 rfl rfl,
          set_on_absent_data_is_size_query.2.2.2.2.2.1 pIN 7 rfl rfl,
          set_on_absent_data_is_size_query.2.2.2.2.2.2.1 pUN 7 rfl rfl,
          set_on_absent_data_is_size_query.2.2.2.2.2.2.2.1 pIN 7 rfl rfl,
          set_on_absent_data_is_size_query.2.2.2.2.2.2.2.2.1 pIN [1, 2, 3] rfl,
          set_on_absent_data_is_size_query.2.2.2.2.2.2.2.2.2.1 pUN [1, 2, 3] rfl,
          set_on_absent_data_is_size_query.2.2.2.2.2.2.2.2.2.2.1 pSN [104, 105] rfl rfl,
          set_on_absent_data_is_size_query.2.2.2.2.2.2.2.2.2.2.2.1 pON [104, 105] rfl rfl,
          ?_⟩
  have h := set_on_absent_data_is_size_query.2.2.2.2.2.2.2.2.2.2.2.2 pIN (-256) rfl
    (by decide)
  simpa [pIN, BN_num_bytes, Nat.log2] using h

/-- Reading back the four bytes written by a 4-byte store recovers the value
modulo 2^32. -/
theorem decode_encode_4 (n : Nat) : decodeLE ((encodeLE 4 n).take 4) = n % 2 ^ 32 := by
  simp [encodeLE, decodeLE]
  omega

/-- Reading back the eight bytes written by an 8-byte store recovers the
value modulo 2^64. -/
theorem decode_encode_8 (n : Nat) : decodeLE ((encodeLE 8 n).take 8) = n % 2 ^ 64 := by
  simp [encodeLE, decodeLE]
  omega

/-- Two's-complement round trip at 4 bytes over the int32 range. -/
theorem fromTwos_toTwos_4 (v : Int) (h1 : INT32_MIN ≤ v) (h2 : v ≤ INT32_MAX) :
    fromTwos 4 (toTwos 4 v % 4294967296) = v := by
  simp only [fromTwos, toTwos, INT32_MIN, INT32_MAX] at *
  norm_num at *
  split <;> omega

/-- Two's-complement round trip at 8 bytes over the int64 range. -/
theorem fromTwos_toTwos_8 (v : Int) (h1 : INT64_MIN ≤ v) (h2 : v ≤ INT64_MAX) :
    fromTwos 8 (toTwos 8 v % 18446744073709551616) = v := by
  simp only [fromTwos, toTwos, INT64_MIN, INT64_MAX] at *
  norm_num at *
  split <;> omega

/-- C1: set-then-get round trip for both widths and signednesses: a typed
set of a representable value into an INTEGER (resp. UNSIGNED_INTEGER)
descriptor with a 4- or 8-byte buffer succeeds, and the typed get of the
same width and signedness returns the original value unchanged. -/
theorem set_get_roundtrip :
    (∀ (p : OSSLParam) (b : BufVal) (v : Int),
       p.data_type = .INTEGER → p.data_size = 4 → p.data = some b →
       INT32_MIN ≤ v → v ≤ INT32_MAX →
       OSSL_PARAM_set_int32 (some p) v =
         (true, none, some { p with return_size := 4,
                                    data := some (.bytes (encodeLE 4 (toTwos 4 v))) })
       ∧ (OSSL_PARAM_get_int32 ((OSSL_PARAM_set_int32 (some p) v).2.2)).1 = true
       ∧ (OSSL_PARAM_get_int32 ((OSSL_PARAM_set_int32 (some p) v).2.2)).2.2.1 = some v)
  ∧ (∀ (p : OSSLParam) (b : BufVal) (v : Int),
       p.data_type = .INTEGER → p.data_size = 8 → p.data = some b →
       INT64_MIN ≤ v → v ≤ INT64_MAX →
       OSSL_PARAM_set_int64 (some p) v =
         (true, none, some { p with return_size := 8,
                                    data := some (.bytes (encodeLE 8 (toTwos 8 v))) })
       ∧ (OSSL_PARAM_get_int64 ((OSSL_PARAM_set_int64 (some p) v).2.2)).1 = true
       ∧ (OSSL_PARAM_get_int64 ((OSSL_PARAM_set_int64 (some p) v).2.2)).2.2.1 = some v)
  ∧ (∀ (p : OSSLParam) (b : BufVal) (v : Nat),
       p.data_type = .UNSIGNED_INTEGER → p.data_size = 4 → p.data = some b →
       v ≤ UINT32_MAX →
       OSSL_PARAM_set_uint32 (some p) v =
         (true, none, some { p with return_size := 4,
                                    data := some (.bytes (encodeLE 4 v)) })
       ∧ (OSSL_PARAM_get_uint32 ((OSSL_PARAM_set_uint32 (some p) v).2.2)).1 = true
       ∧ (OSSL_PARAM_get_uint32 ((OSSL_PARAM_set_uint32 (some p) v).2.2)).2.2.1 = some v)
  ∧ (∀ (p : OSSLParam) (b : BufVal) (v : Nat),
       p.data_type = .UNSIGNED_INTEGER → p.data_size = 8 → p.data = some b →
       v ≤ UINT64_MAX →
       OSSL_PARAM_set_uint64 (some p) v =
         (true, none, some { p with return_size := 8,
                                    data := some (.bytes (encodeLE 8 v)) })
       ∧ (OSSL_PARAM_get_uint64 ((OSSL_PARAM_set_uint64 (some p) v).2.2)).1 = true
       ∧ (OSSL_PARAM_get_uint64 ((OSSL_PARAM_set_uint64 (some p) v).2.2)).2.2.1 = some v) := by
  refine ⟨?_, ?_, ?_, ?_⟩
  · rintro ⟨k, dt, d, ds, rs⟩ b v ht hs hd h1 h2
    simp only at ht hs hd
    subst ht; subst hs; subst hd
    have hset : OSSL_PARAM_set_int32 (some ⟨k, .INTEGER, some b, 4, rs⟩) v =
        (true, none, some ⟨k, .INTEGER, some (.bytes (encodeLE 4 (toTwos 4 v))), 4, 4⟩) := rfl
    refine ⟨hset, ?_, ?_⟩ <;>
      simp [hset, OSSL_PARAM_get_int32, BufVal.asBytes, decode_encode_4,
            fromTwos_toTwos_4 v h1 h2]
  · rintro ⟨k, dt, d, ds, rs⟩ b v ht hs hd h1 h2
    simp only at ht hs hd
    subst ht; subst hs; subst hd
    have hset : OSSL_PARAM_set_int64 (some ⟨k, .INTEGER, some b, 8, rs⟩) v =
        (true, none, some ⟨k, .INTEGER, some (.bytes (encodeLE 8 (toTwos 8 v))), 8, 8⟩) := rfl
    refine ⟨hset, ?_, ?_⟩ <;>
      simp [hset, OSSL_PARAM_get_int64, BufVal.asBytes, decode_encode_8,
            fromTwos_toTwos_8 v h1 h2]
  · rintro ⟨k, dt, d, ds, rs⟩ b v ht hs hd hv
    simp only at ht hs hd
    subst ht; subst hs; subst hd
    have hset : OSSL_PARAM_set_uint32 (some ⟨k, .UNSIGNED_INTEGER, some b, 4, rs⟩) v =
        (true, none, some ⟨k, .UNSIGNED_INTEGER, some (.bytes (encodeLE 4 v)), 4, 4⟩) := rfl
    have hv32 : v % 2 ^ 32 = v := Nat.mod_eq_of_lt (by
      simp only [UINT32_MAX] at hv; omega)
    refine ⟨hset, ?_, ?_⟩ <;>
      simp [hset, OSSL_PARAM_get_uint32, BufVal.asBytes, decode_encode_4, hv32] <;>
        simp only [UINT32_MAX] at hv <;> omega
  · rintro ⟨k, dt, d, ds, rs⟩ b v ht hs hd hv
    simp only at ht hs hd
    subst ht; subst hs; subst hd
    have hset : OSSL_PARAM_set_uint64 (some ⟨k, .UNSIGNED_INTEGER, some b, 8, rs⟩) v =
        (true, none, some ⟨k, .UNSIGNED_INTEGER, some (.bytes (encodeLE 8 v)), 8, 8⟩) := rfl
    have hv64 : v % 2 ^ 64 = v := Nat.mod_eq_of_lt (by
      simp only [UINT64_MAX] at hv; omega)
    refine ⟨hset, ?_, ?_⟩ <;>
      simp [hset, OSSL_PARAM_get_uint64, BufVal.asBytes, decode_encode_8, hv64] <;>
        simp only [UINT64_MAX] at hv <;> omega

def pI8c : OSSLParam :=
  { key := some "k", data_type := .INTEGER, data := some (.bytes [9, 9, 9, 9, 9, 9, 9, 9]),
    data_size := 8, return_size := OSSL_PARAM_UNMODIFIED }

def pU8c : OSSLParam :=
  { key := some "k", data_type := .UNSIGNED_INTEGER,
    data := some (.bytes [9, 9, 9, 9, 9, 9, 9, 9]),
    data_size := 8, return_size := OSSL_PARAM_UNMODIFIED }

/-- C1 (witness): the round trip at boundary values for all four
width/signedness combinations. -/
theorem set_get_roundtrip_witness :
    (OSSL_PARAM_get_int32 ((OSSL_PARAM_set_int32 (some pI4c) INT32_MIN).2.2)).2.2.1 =
      some INT32_MIN
  ∧ (OSSL_PARAM_get_int64 ((OSSL_PARAM_set_int64 (some pI8c) INT64_MIN).2.2)).2.2.1 =
      some INT64_MIN
  ∧ (OSSL_PARAM_get_uint32 ((OSSL_PARAM_set_uint32 (some pU4c) UINT32_MAX).2.2)).2.2.1 =
      some UINT32_MAX
  ∧ (OSSL_PARAM_get_uint64 ((OSSL_PARAM_set_uint64 (some pU8c) UINT64_MAX).2.2)).2.2.1 =
      some UINT64_MAX :=
  ⟨(set_get_roundtrip.1 pI4c (.bytes [5, 0, 0, 0]) INT32_MIN rfl rfl rfl
      (by decide) (by decide)).2.2,
   (set_get_roundtrip.2.1 pI8c (.bytes [9, 9, 9, 9, 9, 9, 9, 9]) INT64_MIN rfl rfl rfl
      (by decide) (by decide)).2.2,
   (set_get_roundtrip.2.2.1 pU4c (.bytes [9, 9, 9, 9]) UINT32_MAX rfl rfl rfl
      (by decide)).2.2,
   (set_get_roundtrip.2.2.2 pU8c (.bytes [9, 9, 9, 9, 9, 9, 9, 9]) UINT64_MAX rfl rfl rfl
      (by decide)).2.2⟩

/-- A scan for a terminator runs through a NUL-free list whole. -/
theorem takeWhile_ne_zero {s : Bytes} (h : ∀ b ∈ s, b ≠ 0) :
    s.takeWhile (fun b => b != 0) = s := by
  induction s with
  | nil => rfl
  | cons a t ih =>
    have ha : a ≠ 0 := h a (by simp)
    simp only [List.takeWhile_cons]
    simp [ha, ih (fun b hb => h b (by simp [hb]))]

/-- `OPENSSL_strnlen` over a NUL-free buffer capped at its own length. -/
theorem strnlen_full {s : Bytes} (h : ∀ b ∈ s, b ≠ 0) :
    OPENSSL_strnlen s s.length = s.length := by
  simp [OPENSSL_strnlen, List.take_length, takeWhile_ne_zero h]

/-- Writing one cell just past a prefix lands in the suffix. -/
theorem set_append_length (xs ys : Bytes) (a : Nat) :
    (xs ++ ys).set xs.length a = xs ++ ys.set 0 a := by
  induction xs with
  | nil => rfl
  | cons x t ih => simp [List.set, ih]

/-- C7: for a UTF8_STRING descriptor holding a NUL-free string of length L
(`data_size = L`), `OSSL_PARAM_get_utf8_string` into a caller buffer of
capacity exactly L+1 succeeds and NUL-terminates at index L, while a buffer
of capacity exactly L fails with the no-space-for-terminating-NUL error. -/
theorem get_utf8_string_terminator :
    ∀ (s buf : Bytes) (k : Option String) (rs : Nat),
      (∀ b ∈ s, b ≠ 0) →
      (buf.length = s.length + 1 →
        OSSL_PARAM_get_utf8_string
            (some ⟨k, .UTF8_STRING, some (.bytes s), s.length, rs⟩)
            (some buf) (s.length + 1) =
          (true, none, some (s ++ [0])))
      ∧ (buf.length = s.length →
        OSSL_PARAM_get_utf8_string
            (some ⟨k, .UTF8_STRING, some (.bytes s), s.length, rs⟩)
            (some buf) s.length =
          (false, some .NoSpaceNul, some s)) := by
  intro s buf k rs hnz
  constructor
  · intro hb
    have hint : get_string_internal
        (some ⟨k, .UTF8_STRING, some (.bytes s), s.length, rs⟩)
        (some (some buf)) (s.length + 1) false .UTF8_STRING =
        ⟨true, none, some (some (s ++ buf.drop s.length)), s.length + 1, none⟩ := by
      simp [get_string_internal, BufVal.asBytes, List.take_length]
    obtain ⟨y, hy⟩ : ∃ y, buf.drop s.length = [y] := by
      have : (buf.drop s.length).length = 1 := by simp [hb]
      exact List.length_eq_one.mp this
    simp [OSSL_PARAM_get_utf8_string, hint, BufVal.asBytes, hy,
          set_append_length s [y] 0]
  · intro hb
    have hint : get_string_internal
        (some ⟨k, .UTF8_STRING, some (.bytes s), s.length, rs⟩)
        (some (some buf)) s.length false .UTF8_STRING =
        ⟨true, none, some (some (s ++ buf.drop s.length)), s.length, none⟩ := by
      simp [get_string_internal, BufVal.asBytes, List.take_length]
    have hdrop : buf.drop s.length = [] := by
      rw [← hb]; exact List.drop_length buf
    simp [OSSL_PARAM_get_utf8_string, hint, BufVal.asBytes, hdrop,
          strnlen_full hnz]

/-- C7 (witness): the two-byte string "hi" against buffers of capacity 3
and 2. -/
theorem get_utf8_string_terminator_witness :
    OSSL_PARAM_get_utf8_string
        (some ⟨some "k", .UTF8_STRING, some (.bytes [104, 105]), 2, 7⟩)
        (some [1, 2, 3]) 3 = (true, none, some [104, 105, 0])
  ∧ OSSL_PARAM_get_utf8_string
        (some ⟨some "k", .UTF8_STRING, some (.bytes [104, 105]), 2, 7⟩)
        (some [1, 2]) 2 = (false, some .NoSpaceNul, some [104, 105]) :=
  ⟨(get_utf8_string_terminator [104, 105] [1, 2, 3] (some "k") 7 (by decide)).1 (by decide),
   (get_utf8_string_terminator [104, 105] [1, 2] (some "k") 7 (by decide)).2 (by decide)⟩

/-- C5: `copy_integer` (entered through `signed_from_signed`, which supplies
the sign pad) from an 8-byte source holding a signed value outside the
4-byte signed range fails with the ValueTooLarge error and returns the
4-byte destination buffer completely untouched. -/
theorem copy_integer_truncation_rejection :
    ∀ (b0 b1 b2 b3 b4 b5 b6 b7 : Nat) (dest : Bytes),
      b0 < 256 → b1 < 256 → b2 < 256 → b3 < 256 →
      b4 < 256 → b5 < 256 → b6 < 256 → b7 < 256 →
      dest.length = 4 →
      (fromTwos 8 (decodeLE [b0, b1, b2, b3, b4, b5, b6, b7]) < INT32_MIN ∨
       INT32_MAX < fromTwos 8 (decodeLE [b0, b1, b2, b3, b4, b5, b6, b7])) →
      signed_from_signed dest [b0, b1, b2, b3, b4, b5, b6, b7] =
        (false, some .OutOfRange, dest) := by
  intro b0 b1 b2 b3 b4 b5 b6 b7 dest h0 h1 h2 h3 h4 h5 h6 h7 hdest hrange
  have hN : decodeLE [b0, b1, b2, b3, b4, b5, b6, b7] =
      b0 + 256 * (b1 + 256 * (b2 + 256 * (b3 + 256 * (b4 + 256 * (b5 + 256 *
        (b6 + 256 * b7)))))) := by
    simp [decodeLE]
  rw [hN] at hrange
  simp only [fromTwos, INT32_MIN, INT32_MAX] at hrange
  by_cases hneg : 128 ≤ b7
  · have hm : 128 &&& b7 ≠ 0 := (land128_ne_zero b7 h7).mpr hneg
    have his : is_negative IS_BIG_ENDIAN [b0, b1, b2, b3, b4, b5, b6, b7] = true := by
      simp [is_negative, IS_BIG_ENDIAN, hm]
    have hfail : ¬ ((b4 = 255 ∧ b5 = 255 ∧ b6 = 255 ∧ b7 = 255) ∧ 128 ≤ b3) := by
      rintro ⟨⟨e4, e5, e6, e7⟩, e3⟩
      subst e4; subst e5; subst e6; subst e7
      rcases hrange with h | h <;> split at h <;> omega
    have hcondP : check_sign_bytes [b4, b5, b6, b7] 255 = false ∨
        ¬ (255 ^^^ b3) &&& 128 = 0 := by
      by_cases hchk : b4 = 255 ∧ b5 = 255 ∧ b6 = 255 ∧ b7 = 255
      · exact Or.inr (fun h => (fun hh => hfail ⟨hchk, hh⟩) ((xor255_land128 b3 h3).mp h))
      · refine Or.inl ?_
        simp only [check_sign_bytes, List.all_cons, List.all_nil]
        simp only [Bool.and_true, Bool.and_eq_false_iff, decide_eq_false_iff_not]
        omega
    clear hrange
    simp only [IS_BIG_ENDIAN] at his
    simp only [signed_from_signed, IS_BIG_ENDIAN, his, copy_integer, hdest]
    norm_num
    intro hck
    rcases hcondP with hc | hc
    · rw [hck] at hc; cases hc
    · exact hc
  · have hm : 128 &&& b7 = 0 := by
      by_contra hc
      exact hneg ((land128_ne_zero b7 h7).mp hc)
    have his : is_negative IS_BIG_ENDIAN [b0, b1, b2, b3, b4, b5, b6, b7] = false := by
      simp [is_negative, IS_BIG_ENDIAN, hm]
    have hfail : ¬ ((b4 = 0 ∧ b5 = 0 ∧ b6 = 0 ∧ b7 = 0) ∧ b3 < 128) := by
      rintro ⟨⟨e4, e5, e6, e7⟩, e3⟩
      subst e4; subst e5; subst e6; subst e7
      rcases hrange with h | h <;> split at h <;> omega
    have hcondP : check_sign_bytes [b4, b5, b6, b7] 0 = false ∨
        ¬ b3 &&& 128 = 0 := by
      by_cases hchk : b4 = 0 ∧ b5 = 0 ∧ b6 = 0 ∧ b7 = 0
      · exact Or.inr (fun h => (fun hh => hfail ⟨hchk, hh⟩) ((land128_eq_zero b3 h3).mp h))
      · refine Or.inl ?_
        simp only [check_sign_bytes, List.all_cons, List.all_nil]
        simp only [Bool.and_true, Bool.and_eq_false_iff, decide_eq_false_iff_not]
        omega
    clear hrange
    simp only [IS_BIG_ENDIAN] at his
    simp only [signed_from_signed, IS_BIG_ENDIAN, his, copy_integer, hdest]
    norm_num
    intro hck
    rcases hcondP with hc | hc
    · rw [hck] at hc; cases hc
    · exact hc

/-- C5 (witness): the value 2^32 in an 8-byte source against a 4-byte
destination. -/
theorem copy_integer_truncation_rejection_witness :
    signed_from_signed [9, 9, 9, 9] [0, 0, 0, 0, 1, 0, 0, 0] =
      (false, some .OutOfRange, [9, 9, 9, 9]) :=
  copy_integer_truncation_rejection 0 0 0 0 1 0 0 0 [9, 9, 9, 9]
    (by decide) (by decide) (by decide) (by decide) (by decide) (by decide)
    (by decide) (by decide) (by decide) (by decide)
